import Mathlib

/-!
Verification of the obj2buf buffer layout planner and binary scalar codec.

The C++ sources are shallowly embedded: C++ `float` values are modelled as
exact rationals (`ℚ`), C++ integers as `ℤ`/`ℕ` (with explicit wrapping where
the source relies on two's-complement conversions), and the caller-owned
byte buffer of `VertexPacker` as a `List ℕ` of bytes together with a fixed
capacity.  C's `round` (round half away from zero) is `rndAway`, and the
IEEE 754 conversions that the source performs through `_Float16` casts and
`float`/`int32_t` unions are modelled by `toHalfBits` / `float32bits` /
`halfToFloatQ` (round-to-nearest-even on exact rational inputs).
-/

/-- C's `round`: round half away from zero (used for all `round(...)` calls
in `vertexpacker.cpp`). -/
def rndAway (q : ℚ) : ℤ :=
  if 0 ≤ q then ⌊q + 1/2⌋ else -⌊-q + 1/2⌋

/-- Round to nearest, ties to even (IEEE 754 default rounding, used to model
the `_Float16` and binary32 conversions). -/
def rne (q : ℚ) : ℤ :=
  let f := ⌊q⌋
  let r := q - (f : ℚ)
  if r < 1/2 then f
  else if 1/2 < r then f + 1
  else if f % 2 = 0 then f else f + 1

/-- The `clamp` helper of `vertexpacker.cpp`: `std::min(max, std::max(min, val))`. -/
def clampZ (val lo hi : ℤ) : ℤ := min hi (max lo val)

/-- Two's-complement reinterpretation of an integer as a signed 32-bit value
(models C++ casts of `unsigned`/`long` values to `int32_t`). -/
def toInt32 (z : ℤ) : ℤ := (z + 2 ^ 31).emod (2 ^ 32) - 2 ^ 31

/-- IEEE 754 binary16 bit pattern of an exact rational value, rounding to
nearest even and saturating to infinity.  Models `utils::floatToHalf`, whose
primary implementation is the compiler's `_Float16` cast (minifloat.cpp). -/
def toHalfBits (q : ℚ) : ℕ :=
  if q = 0 then 0 else
  let s : ℕ := if q < 0 then 0x8000 else 0
  let a := |q|
  let e := Int.log 2 a
  if e < -14 then
    -- subnormal halves: multiples of 2^-24
    s + (rne (a * 2 ^ 24)).toNat
  else
    let m := rne (a / (2 : ℚ) ^ e * 2 ^ 10)
    let em := if m = 2048 then (e + 1, (1024 : ℤ)) else (e, m)
    if 15 < em.1 then s + 0x7C00
    else s + ((em.1 + 15).toNat <<< 10) + (em.2 - 1024).toNat

/-- IEEE 754 binary32 bit pattern of an exact rational value, rounding to
nearest even and saturating to infinity.  Models the `union { float f;
int32_t i; }` reinterpretation in the `FLOAT32` default branch of the
encoders (the C++ input is already a `float`, on which this is exact). -/
def float32bits (q : ℚ) : ℕ :=
  if q = 0 then 0 else
  let s : ℕ := if q < 0 then 0x80000000 else 0
  let a := |q|
  let e := Int.log 2 a
  if e < -126 then
    s + (rne (a * 2 ^ 149)).toNat
  else
    let m := rne (a / (2 : ℚ) ^ e * 2 ^ 23)
    let em := if m = 2 ^ 24 then (e + 1, (2 ^ 23 : ℤ)) else (e, m)
    if 127 < em.1 then s + 0x7F800000
    else s + ((em.1 + 127).toNat <<< 23) + (em.2 - 2 ^ 23).toNat

/-- Exact rational value of an IEEE 754 binary16 bit pattern; models
`utils::halfToFloat`.  Infinities and NaNs (exponent field 31) have no
rational counterpart and are mapped to `0`; no claim evaluates them. -/
def halfToFloatQ (h : ℕ) : ℚ :=
  let s : ℚ := if h.testBit 15 then -1 else 1
  let e := (h >>> 10) &&& 0x1F
  let m := h &&& 0x3FF
  if e = 0 then s * m / 2 ^ 24
  else if e = 31 then 0
  else s * ((1024 + m : ℕ) : ℚ) * (2 : ℚ) ^ ((e : ℤ) - 25)

/-- `VertexPacker::Storage::Type` (vertexpacker.h). -/
inductive Storage where
  | EXCLUDE
  | SINT08N
  | SINT08C
  | UINT08N
  | UINT08C
  | SINT16N
  | SINT16C
  | UINT16N
  | UINT16C
  | FLOAT16
  | SINT32C
  | UINT32C
  | FLOAT32
  deriving DecidableEq, Repr

namespace Storage

/-- `Storage::bytes()` (vertexpacker.h). -/
def bytes : Storage → ℕ
  | EXCLUDE => 0
  | SINT08N | SINT08C | UINT08N | UINT08C => 1
  | SINT16N | SINT16C | UINT16N | UINT16C | FLOAT16 => 2
  | _ => 4

/-- `Storage::operator bool()`: the type is set (not `EXCLUDE`). -/
def used : Storage → Bool
  | EXCLUDE => false
  | _ => true

/-- `Storage::isSigned()` (vertexpacker.h). -/
def isSigned : Storage → Bool
  | EXCLUDE | UINT08N | UINT08C | UINT16N | UINT16C | UINT32C => false
  | _ => true

/-- `Storage::isNormalized()` (vertexpacker.h). -/
def isNormalized : Storage → Bool
  | SINT08N | UINT08N | SINT16N | UINT16N => true
  | _ => false

end Storage

/-- `encodeSignedLegacy<Bits>` (vertexpacker.cpp line 46). -/
def encodeSignedLegacy (Bits : ℕ) (val : ℚ) : ℤ :=
  rndAway ((val * ((2 : ℚ) ^ Bits - 1) - 1) / 2)

/-- `decodeSignedLegacy<Bits>` (vertexpacker.cpp line 62). -/
def decodeSignedLegacy (Bits : ℕ) (val : ℤ) : ℚ :=
  ((2 * val + 1 : ℤ) : ℚ) / ((2 : ℚ) ^ Bits - 1)

/-- `encodeSignedModern<Bits>` (vertexpacker.cpp line 82). -/
def encodeSignedModern (Bits : ℕ) (val : ℚ) : ℤ :=
  rndAway (val * ((2 : ℚ) ^ (Bits - 1) - 1))

/-- `decodeSignedModern<Bits>` (vertexpacker.cpp line 98). -/
def decodeSignedModern (Bits : ℕ) (val : ℤ) : ℚ :=
  (val : ℚ) / ((2 : ℚ) ^ (Bits - 1) - 1)

/-- `encodeLegacy(float, Storage)` (vertexpacker.cpp line 110). -/
def encodeLegacy (val : ℚ) : Storage → ℤ
  | .EXCLUDE => 0
  | .SINT08N => clampZ (encodeSignedLegacy 8 val) (-128) 127
  | .SINT08C => clampZ (rndAway val) (-128) 127
  | .UINT08N => clampZ (rndAway val * 255) 0 255
  | .UINT08C => clampZ (rndAway val) 0 255
  | .SINT16N => clampZ (encodeSignedLegacy 16 val) (-32768) 32767
  | .SINT16C => clampZ (rndAway val) (-32768) 32767
  | .UINT16N => clampZ (rndAway val * 65535) 0 65535
  | .UINT16C => clampZ (rndAway val) 0 65535
  | .FLOAT16 => (toHalfBits val : ℤ)
  | .SINT32C => clampZ (rndAway val) (-(2 ^ 31)) (2 ^ 31 - 1)
  | .UINT32C => toInt32 (clampZ (rndAway val) 0 (2 ^ 32 - 1))
  | .FLOAT32 => toInt32 (float32bits val)

/-- `decodeLegacy(int32_t, Storage)` (vertexpacker.cpp line 150). -/
def decodeLegacy (val : ℤ) : Storage → ℚ
  | .EXCLUDE => 0
  | .SINT08N => decodeSignedLegacy 8 (clampZ val (-128) 127)
  | .SINT08C => (clampZ val (-128) 127 : ℚ)
  | .UINT08N => (clampZ val 0 255 : ℚ) / 255
  | .UINT08C => (clampZ val 0 255 : ℚ)
  | .SINT16N => decodeSignedLegacy 16 (clampZ val (-32768) 32767)
  | .SINT16C => (clampZ val (-32768) 32767 : ℚ)
  | .UINT16N => (clampZ val 0 65535 : ℚ) / 65535
  | .UINT16C => (clampZ val 0 65535 : ℚ)
  | .FLOAT16 => halfToFloatQ (val.emod 65536).toNat
  | _ => 0

/-- `encodeModern(float, Storage)` (vertexpacker.cpp line 185). -/
def encodeModern (val : ℚ) : Storage → ℤ
  | .EXCLUDE => 0
  | .SINT08N => clampZ (encodeSignedModern 8 val) (-127) 127
  | .SINT08C => clampZ (rndAway val) (-128) 127
  | .UINT08N => clampZ (rndAway val * 255) 0 255
  | .UINT08C => clampZ (rndAway val) 0 255
  | .SINT16N => clampZ (encodeSignedModern 16 val) (-32767) 32767
  | .SINT16C => clampZ (rndAway val) (-32768) 32767
  | .UINT16N => clampZ (rndAway val * 65535) 0 65535
  | .UINT16C => clampZ (rndAway val) 0 65535
  | .FLOAT16 => (toHalfBits val : ℤ)
  | .SINT32C => clampZ (rndAway val) (-(2 ^ 31)) (2 ^ 31 - 1)
  | .UINT32C => toInt32 (clampZ (rndAway val) 0 (2 ^ 32 - 1))
  | .FLOAT32 => toInt32 (float32bits val)

/-- `decodeModern(int32_t, Storage)` (vertexpacker.cpp line 225).  Note the
source clamps `SINT08N` inputs to `[-INT8_MAX, INT8_MAX]` but `SINT16N`
inputs to `[INT16_MIN, INT16_MAX]`, and `SINT16C` to `[-INT16_MAX,
INT16_MAX]`; this asymmetry is reproduced exactly. -/
def decodeModern (val : ℤ) : Storage → ℚ
  | .EXCLUDE => 0
  | .SINT08N => decodeSignedModern 8 (clampZ val (-127) 127)
  | .SINT08C => (clampZ val (-128) 127 : ℚ)
  | .UINT08N => (clampZ val 0 255 : ℚ) / 255
  | .UINT08C => (clampZ val 0 255 : ℚ)
  | .SINT16N => decodeSignedModern 16 (clampZ val (-32768) 32767)
  | .SINT16C => (clampZ val (-32767) 32767 : ℚ)
  | .UINT16N => (clampZ val 0 65535 : ℚ) / 65535
  | .UINT16C => (clampZ val 0 65535 : ℚ)
  | .FLOAT16 => halfToFloatQ (val.emod 65536).toNat
  | _ => 0

/-! ### Arithmetic facts about the codec helpers -/

lemma rndAway_intCast (n : ℤ) : rndAway (n : ℚ) = n := by
  unfold rndAway
  by_cases h : 0 ≤ (n : ℚ)
  · rw [if_pos h, add_comm, Int.floor_add_int]
    norm_num
  · rw [if_neg h]
    have : -(n : ℚ) = ((-n : ℤ) : ℚ) := by push_cast; ring
    rw [this, add_comm, Int.floor_add_int]
    norm_num

lemma clampZ_eq_self {n lo hi : ℤ} (h1 : lo ≤ n) (h2 : n ≤ hi) :
    clampZ n lo hi = n := by
  unfold clampZ
  rw [max_eq_right h1, min_eq_right h2]

lemma legacy_roundtrip (B : ℕ) (hB : (2 : ℚ) ^ B - 1 ≠ 0) (n : ℤ) :
    encodeSignedLegacy B (decodeSignedLegacy B n) = n := by
  unfold encodeSignedLegacy decodeSignedLegacy
  have h : (((2 * n + 1 : ℤ) : ℚ) / ((2 : ℚ) ^ B - 1) * ((2 : ℚ) ^ B - 1) - 1) / 2
      = (n : ℚ) := by
    field_simp
  rw [h, rndAway_intCast]

lemma modern_roundtrip (B : ℕ) (hB : (2 : ℚ) ^ (B - 1) - 1 ≠ 0) (n : ℤ) :
    encodeSignedModern B (decodeSignedModern B n) = n := by
  unfold encodeSignedModern decodeSignedModern
  have h : (n : ℚ) / ((2 : ℚ) ^ (B - 1) - 1) * ((2 : ℚ) ^ (B - 1) - 1) = (n : ℚ) := by
    field_simp
  rw [h, rndAway_intCast]

/-- C1: for `SInt8Norm` and `SInt16Norm`, under both the legacy and the modern
signed convention, decoding a stored integer in the type's valid range and
re-encoding it yields the same integer, except that with the modern
convention the minimum (`-128` resp. `-32768`) re-encodes to the negated
maximum (`-127` resp. `-32767`). -/
theorem roundtrip_signed_norm (n : ℤ) :
    (-128 ≤ n → n ≤ 127 →
      encodeLegacy (decodeLegacy n .SINT08N) .SINT08N = n ∧
      encodeModern (decodeModern n .SINT08N) .SINT08N =
        (if n = -128 then -127 else n)) ∧
    (-32768 ≤ n → n ≤ 32767 →
      encodeLegacy (decodeLegacy n .SINT16N) .SINT16N = n ∧
      encodeModern (decodeModern n .SINT16N) .SINT16N =
        (if n = -32768 then -32767 else n)) := by
  constructor
  · intro h1 h2
    constructor
    · simp only [encodeLegacy, decodeLegacy]
      rw [clampZ_eq_self h1 h2, legacy_roundtrip 8 (by norm_num),
        clampZ_eq_self h1 h2]
    · simp only [encodeModern, decodeModern]
      have hm1 : (-127 : ℤ) ≤ clampZ n (-127) 127 := by unfold clampZ; omega
      have hm2 : clampZ n (-127) 127 ≤ 127 := by unfold clampZ; omega
      rw [modern_roundtrip 8 (by norm_num), clampZ_eq_self hm1 hm2]
      unfold clampZ
      split <;> omega
  · intro h1 h2
    constructor
    · simp only [encodeLegacy, decodeLegacy]
      rw [clampZ_eq_self h1 h2, legacy_roundtrip 16 (by norm_num),
        clampZ_eq_self h1 h2]
    · simp only [encodeModern, decodeModern]
      have hm1 : (-32767 : ℤ) ≤ clampZ (clampZ n (-32768) 32767) (-32767) 32767 := by
        unfold clampZ; omega
      rw [clampZ_eq_self h1 h2, modern_roundtrip 16 (by norm_num)]
      unfold clampZ
      split <;> omega

/-- Witness for `roundtrip_signed_norm` at `n = -128`. -/
theorem roundtrip_signed_norm_witness :
    encodeLegacy (decodeLegacy (-128) .SINT08N) .SINT08N = -128 ∧
    encodeModern (decodeModern (-128) .SINT08N) .SINT08N = -127 := by
  have h := (roundtrip_signed_norm (-128)).1 (by norm_num) (by norm_num)
  exact ⟨h.1, by simpa using h.2⟩

/-- The legacy signed-normalized encode exactly as the specification words it:
`round((value*(2^bits - 1) - 1)/2)` clamped to the full signed range
including the minimum. -/
def specLegacyEncode (B : ℕ) (v : ℚ) : ℤ :=
  clampZ (rndAway ((v * ((2 : ℚ) ^ B - 1) - 1) / 2)) (-(2 ^ (B - 1))) (2 ^ (B - 1) - 1)

/-- The legacy signed-normalized decode exactly as the specification words it:
`(2*stored + 1)/(2^bits - 1)`. -/
def specLegacyDecode (B : ℕ) (n : ℤ) : ℚ :=
  (2 * n + 1 : ℤ) / ((2 : ℚ) ^ B - 1)

/-- C5: the legacy signed-normalized convention: the 8- and 16-bit legacy
encoders equal `round((v*(2^B - 1) - 1)/2)` clamped to the full signed range
including the minimum; decoding a stored integer in range yields
`(2n + 1)/(2^B - 1)`; and no stored integer decodes to exactly zero. -/
theorem legacy_convention (v : ℚ) (n : ℤ) :
    encodeLegacy v .SINT08N = specLegacyEncode 8 v ∧
    encodeLegacy v .SINT16N = specLegacyEncode 16 v ∧
    (-128 ≤ n → n ≤ 127 → decodeLegacy n .SINT08N = specLegacyDecode 8 n) ∧
    (-32768 ≤ n → n ≤ 32767 → decodeLegacy n .SINT16N = specLegacyDecode 16 n) ∧
    decodeLegacy n .SINT08N ≠ 0 ∧
    decodeLegacy n .SINT16N ≠ 0 := by
  refine ⟨by norm_num [encodeLegacy, specLegacyEncode, encodeSignedLegacy],
    by norm_num [encodeLegacy, specLegacyEncode, encodeSignedLegacy],
    fun h1 h2 => ?_, fun h1 h2 => ?_, ?_, ?_⟩
  · simp only [decodeLegacy, specLegacyDecode, decodeSignedLegacy]
    rw [clampZ_eq_self h1 h2]
  · simp only [decodeLegacy, specLegacyDecode, decodeSignedLegacy]
    rw [clampZ_eq_self h1 h2]
  · simp only [decodeLegacy, decodeSignedLegacy]
    apply div_ne_zero
    · have h : (2 * clampZ n (-128) 127 + 1 : ℤ) ≠ 0 := by unfold clampZ; omega
      exact_mod_cast h
    · norm_num
  · simp only [decodeLegacy, decodeSignedLegacy]
    apply div_ne_zero
    · have h : (2 * clampZ n (-32768) 32767 + 1 : ℤ) ≠ 0 := by unfold clampZ; omega
      exact_mod_cast h
    · norm_num

/-- Witness for `legacy_convention` at `v = 0`, `n = 0`. -/
theorem legacy_convention_witness :
    decodeLegacy 0 .SINT08N = specLegacyDecode 8 0 ∧
    decodeLegacy 0 .SINT08N ≠ 0 := by
  have h := legacy_convention 0 0
  exact ⟨h.2.2.1 (by norm_num) (by norm_num), h.2.2.2.2.1⟩

/-- The unsigned-normalized encode exactly as C2 words it: multiply by the
type's maximum unsigned value, round, then clamp to `[0, max]`. -/
def specUnormEncode (maxV : ℤ) (v : ℚ) : ℤ :=
  clampZ (rndAway (v * (maxV : ℚ))) 0 maxV

/-- C2 fails on the code: the source computes `round(val) * max` instead of
`round(val * max)` (vertexpacker.cpp lines 119, 127, 194, 202), so encoding
`0.5` as `UInt8Norm` yields `255` under both conventions (and `65535` for
`UInt16Norm`), where the claimed formula yields `128` (resp. `32768`);
decoding does divide by the maximum as claimed. -/
theorem unorm_encode_bug :
    encodeModern (1/2) .UINT08N = 255 ∧
    encodeLegacy (1/2) .UINT08N = 255 ∧
    encodeModern (1/2) .UINT16N = 65535 ∧
    specUnormEncode 255 (1/2) = 128 ∧
    specUnormEncode 65535 (1/2) = 32768 ∧
    decodeModern 255 .UINT08N = 1 := by
  refine ⟨?_, ?_, ?_, ?_, ?_, ?_⟩ <;>
    norm_num [encodeModern, encodeLegacy, decodeModern, specUnormEncode, rndAway,
      clampZ]

/-! ### `VertexPacker` (vertexpacker.h / vertexpacker.cpp) -/

/-- `VP_FAILED` (vertexpacker.h). -/
def VP_FAILED : Bool := true

/-- `VP_SUCCEEDED` (vertexpacker.h). -/
def VP_SUCCEEDED : Bool := false

/-- The `VertexPacker` write cursor over a caller-owned byte region: `buffer`
is the list of bytes written so far (`next - root` long), `capacity` is
`over - root`, and `opts` the options bitfield (`OPTS_BIG_ENDIAN = 1`,
`OPTS_SIGNED_LEGACY = 2`). -/
structure VertexPacker where
  buffer : List ℕ
  capacity : ℕ
  opts : ℕ
  deriving DecidableEq, Repr

namespace VertexPacker

/-- `VertexPacker::size()`. -/
def size (p : VertexPacker) : ℕ := p.buffer.length

/-- `VertexPacker::hasFreeSpace()`: `next + type.bytes() <= over`. -/
def hasFreeSpace (p : VertexPacker) (type : Storage) : Prop :=
  p.size + type.bytes ≤ p.capacity

instance (p : VertexPacker) (type : Storage) : Decidable (p.hasFreeSpace type) :=
  inferInstanceAs (Decidable (_ ≤ _))

/-- `VertexPacker::add(float, Storage)` (vertexpacker.cpp line 364): returns
the `Failed` flag and the updated packer.  The encoded `int32_t` is emitted
as `type.bytes()` bytes in the configured endianness. -/
def add (p : VertexPacker) (data : ℚ) (type : Storage) : Bool × VertexPacker :=
  if p.hasFreeSpace type then
    if type.used then
      let temp : ℤ :=
        if p.opts &&& 2 = 0 then encodeModern data type else encodeLegacy data type
      let u : ℕ := (temp.emod (2 ^ 32)).toNat
      let emitted : List ℕ :=
        match type.bytes with
        | 1 => [u &&& 0xFF]
        | 2 =>
          if p.opts &&& 1 = 0 then
            [u &&& 0xFF, (u >>> 8) &&& 0xFF]
          else
            [(u >>> 8) &&& 0xFF, u &&& 0xFF]
        | _ =>
          if p.opts &&& 1 = 0 then
            [u &&& 0xFF, (u >>> 8) &&& 0xFF, (u >>> 16) &&& 0xFF, (u >>> 24) &&& 0xFF]
          else
            [(u >>> 24) &&& 0xFF, (u >>> 16) &&& 0xFF, (u >>> 8) &&& 0xFF, u &&& 0xFF]
      (VP_SUCCEEDED, { p with buffer := p.buffer ++ emitted })
    else
      (VP_SUCCEEDED, p)
  else
    (VP_FAILED, p)

/-- `VertexPacker::align(size_t)` (vertexpacker.cpp line 461): note the
source only subtracts `base` when `size() >= base`. -/
def align (p : VertexPacker) (base : ℕ) : Bool × VertexPacker :=
  let used0 := p.size
  let used := if used0 ≥ base then used0 - base else used0
  let bytes := used &&& 3
  if bytes ≠ 0 then
    let pad := 4 - bytes
    if p.size + pad ≤ p.capacity then
      (VP_SUCCEEDED, { p with buffer := p.buffer ++ List.replicate pad 0 })
    else
      (VP_FAILED, p)
  else
    (VP_SUCCEEDED, p)

end VertexPacker

/-- C6: `add(value, type)` is atomic: for `Excluded` it succeeds and changes
nothing; for any other type it fails leaving the packer unchanged when fewer
than `bytes()` bytes remain, and otherwise succeeds writing exactly
`bytes()` bytes (the previous contents kept as a prefix) and advancing the
cursor by `bytes()`. -/
theorem add_atomic (p : VertexPacker) (data : ℚ) (type : Storage)
    (hwf : p.size ≤ p.capacity) :
    (type = .EXCLUDE →
      (p.add data type).1 = VP_SUCCEEDED ∧ (p.add data type).2 = p) ∧
    (type ≠ .EXCLUDE →
      (p.capacity < p.size + type.bytes →
        (p.add data type).1 = VP_FAILED ∧ (p.add data type).2 = p) ∧
      (p.size + type.bytes ≤ p.capacity →
        (p.add data type).1 = VP_SUCCEEDED ∧
        (p.add data type).2.size = p.size + type.bytes ∧
        (p.add data type).2.buffer.take p.size = p.buffer ∧
        (p.add data type).2.capacity = p.capacity)) := by
  constructor
  · rintro rfl
    have hfree : p.hasFreeSpace .EXCLUDE := by
      simpa [VertexPacker.hasFreeSpace, Storage.bytes] using hwf
    simp [VertexPacker.add, hfree, Storage.used]
  · intro hne
    constructor
    · intro hover
      have hfree : ¬p.hasFreeSpace type := by
        simp only [VertexPacker.hasFreeSpace]; omega
      simp [VertexPacker.add, hfree]
    · intro hfit
      have hfree : p.hasFreeSpace type := hfit
      cases type
      case EXCLUDE => exact absurd rfl hne
      all_goals
        refine ⟨?_, ?_, ?_, ?_⟩ <;>
          simp only [VertexPacker.add, if_pos hfree, Storage.used, if_true,
            VertexPacker.size, Storage.bytes] <;>
          first
            | rfl
            | exact List.take_left p.buffer _
            | (try split) <;> simp [List.length_append]

/-- Witness for `add_atomic`: an empty 4-byte packer accepts a `FLOAT32`. -/
theorem add_atomic_witness :
    ((⟨[], 4, 0⟩ : VertexPacker).add 0 .FLOAT32).1 = VP_SUCCEEDED ∧
    ((⟨[], 4, 0⟩ : VertexPacker).add 0 .FLOAT32).2.size = 4 := by
  have h := (add_atomic ⟨[], 4, 0⟩ 0 .FLOAT32 (by decide)).2 (by decide)
  exact ⟨(h.2 (by decide)).1, (h.2 (by decide)).2.1⟩

/-- C7 fails as stated: `align` only subtracts `base` when `size() >= base`,
so with 2 bytes written and `base = 3` it succeeds after padding relative to
offset zero, leaving `(size() - base) % 4 = 1`. -/
theorem align_base_counterexample :
    ((⟨[0, 0], 8, 0⟩ : VertexPacker).align 3).1 = VP_SUCCEEDED ∧
    (((⟨[0, 0], 8, 0⟩ : VertexPacker).align 3).2.size - 3) % 4 ≠ 0 := by
  decide

/-- C7 amended with `base ≤ size()`: a successful `align(base)` appends
between 0 and 3 zero bytes making `(size() - base) % 4 = 0`, and it fails —
without writing — exactly when the needed padding exceeds the remaining
capacity. -/
theorem align_spec (p : VertexPacker) (base : ℕ) (hbase : base ≤ p.size) :
    ((p.align base).1 = VP_SUCCEEDED →
      ∃ k, k ≤ 3 ∧ (p.align base).2.buffer = p.buffer ++ List.replicate k 0 ∧
        ((p.align base).2.size - base) % 4 = 0) ∧
    ((p.align base).1 = VP_FAILED ↔
      ((p.size - base) % 4 ≠ 0 ∧
        p.capacity < p.size + (4 - (p.size - base) % 4))) ∧
    ((p.align base).1 = VP_FAILED → (p.align base).2 = p) := by
  have hmask : (p.size - base) &&& 3 = (p.size - base) % 4 := by
    have h := Nat.and_pow_two_sub_one_eq_mod (p.size - base) 2
    norm_num at h
    exact h
  by_cases hr : (p.size - base) % 4 = 0
  · have halign : p.align base = (VP_SUCCEEDED, p) := by
      simp [VertexPacker.align, hmask, hbase, hr]
    rw [halign]
    refine ⟨fun _ => ⟨0, by omega, by simp, by simpa using hr⟩, ?_, ?_⟩
    · constructor
      · intro h; simp [VP_SUCCEEDED, VP_FAILED] at h
      · intro h; exact absurd hr h.1
    · intro h; simp [VP_SUCCEEDED, VP_FAILED] at h
  · by_cases hcap : p.size + (4 - (p.size - base) % 4) ≤ p.capacity
    · have halign : p.align base =
          (VP_SUCCEEDED,
            { p with buffer :=
                p.buffer ++ List.replicate (4 - (p.size - base) % 4) 0 }) := by
        simp [VertexPacker.align, hmask, hbase, hr, hcap]
      rw [halign]
      refine ⟨fun _ => ⟨4 - (p.size - base) % 4, by omega, rfl, ?_⟩, ?_, ?_⟩
      · simp only [VertexPacker.size, List.length_append, List.length_replicate] at hbase hr ⊢
        omega
      · constructor
        · intro h; simp [VP_SUCCEEDED, VP_FAILED] at h
        · intro h; omega
      · intro h; simp [VP_SUCCEEDED, VP_FAILED] at h
    · have halign : p.align base = (VP_FAILED, p) := by
        simp [VertexPacker.align, hmask, hbase, hr, hcap]
      rw [halign]
      refine ⟨fun h => ?_, ⟨fun _ => ⟨hr, by omega⟩, fun _ => rfl⟩, fun _ => rfl⟩
      simp [VP_SUCCEEDED, VP_FAILED] at h

/-- Witness for `align_spec`: one byte written, `base = 0`, capacity 4. -/
theorem align_spec_witness :
    ((⟨[7], 4, 0⟩ : VertexPacker).align 0).1 = VP_FAILED ↔
      (((⟨[7], 4, 0⟩ : VertexPacker).size - 0) % 4 ≠ 0 ∧
        (4 : ℕ) < (⟨[7], 4, 0⟩ : VertexPacker).size +
          (4 - ((⟨[7], 4, 0⟩ : VertexPacker).size - 0) % 4)) := by
  exact (align_spec ⟨[7], 4, 0⟩ 0 (by decide)).2.1

/-! ### `ToolOptions` (tooloptions.h / tooloptions.cpp) -/

/-- `ToolOptions::Options` ordinal `OPTS_POSITIONS_SCALE`. -/
def OPTS_POSITIONS_SCALE : ℕ := 1

/-- `ToolOptions::Options` ordinal `OPTS_NORMALS_ENCODED`. -/
def OPTS_NORMALS_ENCODED : ℕ := 4

/-- `ToolOptions::Options` ordinal `OPTS_TANGENTS_PACKED`. -/
def OPTS_TANGENTS_PACKED : ℕ := 7

/-- `ToolOptions::Options` ordinal `OPTS_BITANGENTS_SIGN`. -/
def OPTS_BITANGENTS_SIGN : ℕ := 8

/-- `O2B_HAS_OPT(var, ordinal)`: `(var & (1 << ordinal)) != 0`. -/
def O2B_HAS_OPT (var ordinal : ℕ) : Bool :=
  (var &&& (1 <<< ordinal)) != 0

/-- `O2B_SET_OPT(var, ordinal)`: `var |= (1 << ordinal)`. -/
def O2B_SET_OPT (var ordinal : ℕ) : ℕ :=
  var ||| (1 <<< ordinal)

/-- `O2B_CLEAR_OPT(var, ordinal)`: `var &= ~(1 << ordinal)` on a 32-bit
`unsigned` (the complement is taken within 32 bits). -/
def O2B_CLEAR_OPT (var ordinal : ℕ) : ℕ :=
  var &&& ((2 ^ 32 - 1) ^^^ (1 <<< ordinal))

/-- `ToolOptions`: per-attribute storage types and the options bitfield. -/
structure ToolOptions where
  posn : Storage
  text : Storage
  norm : Storage
  tans : Storage
  idxs : Storage
  opts : ℕ
  deriving DecidableEq, Repr

/-- The positions part of `ToolOptions::fixUp` (tooloptions.cpp line 221):
unscaled positions have their normalized types converted to clamped. -/
def fixUpPosn (o : ToolOptions) : ToolOptions :=
  if o.posn.used then
    if O2B_HAS_OPT o.opts OPTS_POSITIONS_SCALE = false then
      { o with posn :=
          match o.posn with
          | .SINT08N => .SINT08C
          | .UINT08N => .UINT08C
          | .SINT16N => .SINT16C
          | .UINT16N => .UINT16C
          | t => t }
    else o
  else { o with opts := O2B_CLEAR_OPT o.opts OPTS_POSITIONS_SCALE }

/-- The tangents part of `ToolOptions::fixUp` (tooloptions.cpp line 247):
encoded normals sharing the tangents' storage type (of at most 2 bytes) set
`OPTS_TANGENTS_PACKED`; without tangents, `OPTS_BITANGENTS_SIGN` is
cleared. -/
def fixUpTans (o : ToolOptions) : ToolOptions :=
  if o.tans.used then
    if O2B_HAS_OPT o.opts OPTS_NORMALS_ENCODED = true ∧ o.norm = o.tans ∧
        o.norm.bytes ≤ 2 then
      { o with opts := O2B_SET_OPT o.opts OPTS_TANGENTS_PACKED }
    else o
  else { o with opts := O2B_CLEAR_OPT o.opts OPTS_BITANGENTS_SIGN }

/-- The index part of `ToolOptions::fixUp` (tooloptions.cpp line 263):
indices are always unsigned and clamped; float index types call `help()`,
which exits the process (modelled as `none`). -/
def fixUpIdxs (o : ToolOptions) : Option ToolOptions :=
  match o.idxs with
  | .SINT08N | .SINT08C | .UINT08N => some { o with idxs := .UINT08C }
  | .SINT16N | .SINT16C | .UINT16N => some { o with idxs := .UINT16C }
  | .SINT32C => some { o with idxs := .UINT32C }
  | .FLOAT16 | .FLOAT32 => none
  | _ => some o

/-- `ToolOptions::fixUp` (tooloptions.cpp line 220). -/
def fixUp (o : ToolOptions) : Option ToolOptions :=
  fixUpIdxs (fixUpTans (fixUpPosn o))

/-! ### `BufferLayout` (bufferlayout.h / bufferlayout.cpp) -/

/-- `BufferLayout::Packing` (bufferlayout.h). -/
inductive Packing where
  | PACK_NONE
  | PACK_POSN_W
  | PACK_TEX0_Z
  | PACK_NORM_Z
  | PACK_NORM_W
  | PACK_TANS_Z
  | PACK_TANS_W
  deriving DecidableEq, Repr

/-- `BufferLayout::AttrParams` (bufferlayout.h). -/
structure AttrParams where
  storage : Storage
  offset : ℕ
  components : ℕ
  unaligned : Bool
  deriving DecidableEq, Repr

namespace AttrParams

/-- `AttrParams::AttrParams()`: zero constructor, excluded. -/
def init : AttrParams := ⟨.EXCLUDE, 0, 0, false⟩

/-- `AttrParams::validate()` (bufferlayout.cpp line 315). -/
def validate (a : AttrParams) : AttrParams :=
  if a.storage.used then
    { a with unaligned := (a.components * a.storage.bytes &&& 3) != 0 }
  else a

/-- `AttrParams::fill()` (bufferlayout.cpp line 308). -/
def fill (attrType : Storage) (startOff numComps : ℕ) : AttrParams :=
  validate ⟨attrType, startOff, numComps, false⟩

/-- `AttrParams::getAlignedSize()` (bufferlayout.cpp line 321). -/
def getAlignedSize (a : AttrParams) : ℕ :=
  (a.components * a.storage.bytes + 3) / 4 * 4

/-- `AttrParams::operator bool()`. -/
def used (a : AttrParams) : Bool := a.storage.used

end AttrParams

/-- `BufferLayout::tryPacking` (bufferlayout.cpp line 285), returning the
updated packing slot and attribute. -/
def tryPacking (what : Packing) (attr : AttrParams) (numComps : ℕ)
    (slot : Packing) (force : Bool) : Packing × AttrParams :=
  if what = .PACK_NONE then
    if attr.used = true ∧ attr.components + numComps ≤ 4 ∧
        (attr.unaligned = true ∨ force = true) then
      (slot, AttrParams.validate { attr with components := attr.components + numComps })
    else (what, attr)
  else (what, attr)

/-- `BufferLayout` fields (bufferlayout.h). -/
structure BufferLayout where
  packTans : Packing
  packSign : Packing
  posn : AttrParams
  tex0 : AttrParams
  norm : AttrParams
  tans : AttrParams
  btan : AttrParams
  stride : ℕ
  deriving DecidableEq, Repr

/-- `BufferLayout::BufferLayout(const ToolOptions&)` (bufferlayout.cpp line
32), as a pure function threading the mutated state in order: position →
uv0 → normal → tangent → bitangent. -/
def mkBufferLayout (opts : ToolOptions) : BufferLayout :=
  let hasEncNormals := O2B_HAS_OPT opts.opts OPTS_NORMALS_ENCODED
  let hasBitansSign := O2B_HAS_OPT opts.opts OPTS_BITANGENTS_SIGN && opts.tans.used
  let hasTansPacked := O2B_HAS_OPT opts.opts OPTS_TANGENTS_PACKED && opts.tans.used
  let s0 : Packing × AttrParams × ℕ :=
    if opts.posn.used then
      let posn := AttrParams.fill opts.posn 0 3
      let r := if hasBitansSign && opts.posn.isSigned then
                 tryPacking .PACK_NONE posn 1 .PACK_POSN_W false
               else (.PACK_NONE, posn)
      (r.1, r.2, r.2.getAlignedSize)
    else (.PACK_NONE, .init, 0)
  let packSign0 := s0.1
  let posn := s0.2.1
  let offset0 := s0.2.2
  let s1 : Packing × AttrParams × ℕ :=
    if opts.text.used then
      let tex0 := AttrParams.fill opts.text offset0 2
      let r := if hasBitansSign && opts.text.isSigned then
                 tryPacking packSign0 tex0 1 .PACK_TEX0_Z false
               else (packSign0, tex0)
      (r.1, r.2, offset0 + r.2.getAlignedSize)
    else (packSign0, .init, offset0)
  let packSign1 := s1.1
  let tex0 := s1.2.1
  let offset1 := s1.2.2
  let s2 : Packing × Packing × AttrParams × ℕ :=
    if opts.norm.used then
      let norm := AttrParams.fill opts.norm offset1 (if hasEncNormals then 2 else 3)
      if hasTansPacked && hasEncNormals then
        let r := tryPacking .PACK_NONE norm 2 .PACK_NORM_Z true
        (r.1, packSign1, r.2, offset1 + r.2.getAlignedSize)
      else
        let r := if hasBitansSign then
                   tryPacking packSign1 norm 1
                     (if hasEncNormals then .PACK_NORM_Z else .PACK_NORM_W) false
                 else (packSign1, norm)
        (.PACK_NONE, r.1, r.2, offset1 + r.2.getAlignedSize)
    else (.PACK_NONE, packSign1, .init, offset1)
  let packTans0 := s2.1
  let packSign2 := s2.2.1
  let norm := s2.2.2.1
  let offset2 := s2.2.2.2
  let s3 : Packing × AttrParams × ℕ :=
    if opts.tans.used then
      if packTans0 = .PACK_NONE then
        let tans := AttrParams.fill opts.tans offset2 (if hasEncNormals then 2 else 3)
        let r := if hasBitansSign then
                   tryPacking packSign2 tans 1
                     (if hasEncNormals then .PACK_TANS_Z else .PACK_TANS_W) false
                 else (packSign2, tans)
        (r.1, r.2, offset2 + r.2.getAlignedSize)
      else (packSign2, .init, offset2)
    else (packSign2, .init, offset2)
  let packSign3 := s3.1
  let tans := s3.2.1
  let offset3 := s3.2.2
  let s4 : AttrParams × ℕ :=
    if opts.tans.used then
      if packSign3 = .PACK_NONE then
        let btan := AttrParams.fill opts.tans offset3
          (if hasBitansSign then 1 else if hasEncNormals then 2 else 3)
        (btan, offset3 + btan.getAlignedSize)
      else (.init, offset3)
    else (.init, offset3)
  ⟨packTans0, packSign3, posn, tex0, norm, tans, s4.1, s4.2⟩

/-- The option set of scenario B: `SInt16Norm` scaled positions, no UVs,
octahedral-encoded `SInt8Norm` normals and tangents, bitangents as
sign-only. -/
def scenarioB : ToolOptions :=
  ⟨.SINT16N, .EXCLUDE, .SINT08N, .SINT08N, .UINT16C,
    (1 <<< OPTS_POSITIONS_SCALE) ||| (1 <<< OPTS_NORMALS_ENCODED) |||
      (1 <<< OPTS_BITANGENTS_SIGN)⟩

/-- C3: scenario B after option fix-up packs the encoded tangent pair into
normal.zw and the bitangent sign into position.w, giving a 4-component
8-byte position, a 4-component 4-byte normal, and a 12-byte stride. -/
theorem scenario_b_layout :
    (fixUp scenarioB).map (fun o =>
      ((mkBufferLayout o).stride, (mkBufferLayout o).packTans,
        (mkBufferLayout o).packSign,
        (mkBufferLayout o).posn.components, (mkBufferLayout o).posn.getAlignedSize,
        (mkBufferLayout o).norm.components, (mkBufferLayout o).norm.getAlignedSize)) =
    some (12, .PACK_NORM_Z, .PACK_POSN_W, 4, 8, 4, 4) := by
  rfl

lemma fixUpPosn_idxs (o : ToolOptions) : (fixUpPosn o).idxs = o.idxs := by
  unfold fixUpPosn
  split
  · split <;> rfl
  · rfl

lemma fixUpTans_idxs (o : ToolOptions) : (fixUpTans o).idxs = o.idxs := by
  unfold fixUpTans
  split
  · split <;> rfl
  · rfl

/-- C8: after option fix-up the index storage type is always `Excluded` or an
unsigned clamped type, whatever was requested, and fix-up is fatal (the
process exits from `help()`) exactly when a float index type was
requested. -/
theorem index_type_normalized (o : ToolOptions) :
    (fixUp o = none ↔ (o.idxs = .FLOAT16 ∨ o.idxs = .FLOAT32)) ∧
    (∀ o', fixUp o = some o' →
      o'.idxs = .EXCLUDE ∨ o'.idxs = .UINT08C ∨ o'.idxs = .UINT16C ∨
        o'.idxs = .UINT32C) := by
  have hidx : (fixUpTans (fixUpPosn o)).idxs = o.idxs := by
    rw [fixUpTans_idxs, fixUpPosn_idxs]
  unfold fixUp
  constructor
  · cases ho : o.idxs <;>
      simp [fixUpIdxs, hidx, ho]
  · intro o' h
    cases ho : o.idxs <;>
      simp [fixUpIdxs, hidx, ho] at h <;>
      simp [← h, hidx, ho]

/-- Witness for `index_type_normalized`: a requested `SInt16Norm` index type
comes out of fix-up as `UInt16Clamp`. -/
theorem index_type_normalized_witness :
    (⟨.FLOAT32, .FLOAT32, .FLOAT32, .EXCLUDE, .UINT16C, 0⟩ : ToolOptions).idxs
        = .EXCLUDE ∨
      (⟨.FLOAT32, .FLOAT32, .FLOAT32, .EXCLUDE, .UINT16C, 0⟩ : ToolOptions).idxs
        = .UINT08C ∨
      (⟨.FLOAT32, .FLOAT32, .FLOAT32, .EXCLUDE, .UINT16C, 0⟩ : ToolOptions).idxs
        = .UINT16C ∨
      (⟨.FLOAT32, .FLOAT32, .FLOAT32, .EXCLUDE, .UINT16C, 0⟩ : ToolOptions).idxs
        = .UINT32C :=
  (index_type_normalized
    ⟨.FLOAT32, .FLOAT32, .FLOAT32, .EXCLUDE, .SINT16N, 0⟩).2
    ⟨.FLOAT32, .FLOAT32, .FLOAT32, .EXCLUDE, .UINT16C, 0⟩ rfl

/-- C4 fails as stated: with octahedral-encoded `Float32` normals, `Float32`
tangents requested and the two storage types equal, the planner still does
not pack the tangent pair (`fixUp` requires the shared type to be at most 2
bytes wide, tooloptions.cpp line 254). -/
theorem tangent_packing_counterexample :
    O2B_HAS_OPT
        (⟨.FLOAT32, .EXCLUDE, .FLOAT32, .FLOAT32, .UINT16C,
          1 <<< OPTS_NORMALS_ENCODED⟩ : ToolOptions).opts
        OPTS_NORMALS_ENCODED = true ∧
    (⟨.FLOAT32, .EXCLUDE, .FLOAT32, .FLOAT32, .UINT16C,
      1 <<< OPTS_NORMALS_ENCODED⟩ : ToolOptions).tans ≠ .EXCLUDE ∧
    (⟨.FLOAT32, .EXCLUDE, .FLOAT32, .FLOAT32, .UINT16C,
      1 <<< OPTS_NORMALS_ENCODED⟩ : ToolOptions).norm =
      (⟨.FLOAT32, .EXCLUDE, .FLOAT32, .FLOAT32, .UINT16C,
        1 <<< OPTS_NORMALS_ENCODED⟩ : ToolOptions).tans ∧
    (fixUp ⟨.FLOAT32, .EXCLUDE, .FLOAT32, .FLOAT32, .UINT16C,
      1 <<< OPTS_NORMALS_ENCODED⟩).map (fun o => (mkBufferLayout o).packTans) =
      some .PACK_NONE := by
  decide

lemma O2B_HAS_OPT_eq_testBit (n k : ℕ) : O2B_HAS_OPT n k = n.testBit k := by
  unfold O2B_HAS_OPT
  rw [Nat.shiftLeft_eq, one_mul, Nat.and_two_pow]
  cases h : n.testBit k
  · simp
  · simp [bne_iff_ne, (Nat.two_pow_pos k).ne']

lemma hasOpt_setOpt (n j k : ℕ) :
    O2B_HAS_OPT (O2B_SET_OPT n j) k
      = (O2B_HAS_OPT n k || O2B_HAS_OPT (1 <<< j) k) := by
  simp only [O2B_HAS_OPT_eq_testBit, O2B_SET_OPT, Nat.testBit_or]

lemma hasOpt_clearOpt (n j k : ℕ) :
    O2B_HAS_OPT (O2B_CLEAR_OPT n j) k
      = (O2B_HAS_OPT n k && O2B_HAS_OPT ((2 ^ 32 - 1) ^^^ (1 <<< j)) k) := by
  simp only [O2B_HAS_OPT_eq_testBit, O2B_CLEAR_OPT, Nat.testBit_and]

lemma used_iff_ne (t : Storage) : t.used = true ↔ t ≠ .EXCLUDE := by
  cases t <;> simp [Storage.used]

lemma fixUpPosn_norm (o : ToolOptions) : (fixUpPosn o).norm = o.norm := by
  unfold fixUpPosn
  split
  · split <;> rfl
  · rfl

lemma fixUpPosn_tans (o : ToolOptions) : (fixUpPosn o).tans = o.tans := by
  unfold fixUpPosn
  split
  · split <;> rfl
  · rfl

lemma fixUpPosn_hasOpt (o : ToolOptions) (k : ℕ)
    (hk : O2B_HAS_OPT ((2 ^ 32 - 1) ^^^ (1 <<< OPTS_POSITIONS_SCALE)) k = true) :
    O2B_HAS_OPT (fixUpPosn o).opts k = O2B_HAS_OPT o.opts k := by
  unfold fixUpPosn
  split
  · split <;> rfl
  · show O2B_HAS_OPT (O2B_CLEAR_OPT o.opts OPTS_POSITIONS_SCALE) k = _
    rw [hasOpt_clearOpt, hk, Bool.and_true]

lemma fixUpTans_norm (o : ToolOptions) : (fixUpTans o).norm = o.norm := by
  unfold fixUpTans
  split
  · split <;> rfl
  · rfl

lemma fixUpTans_tans (o : ToolOptions) : (fixUpTans o).tans = o.tans := by
  unfold fixUpTans
  split
  · split <;> rfl
  · rfl

lemma fixUpTans_hasOpt4 (o : ToolOptions) :
    O2B_HAS_OPT (fixUpTans o).opts OPTS_NORMALS_ENCODED
      = O2B_HAS_OPT o.opts OPTS_NORMALS_ENCODED := by
  unfold fixUpTans
  split
  · split
    · show O2B_HAS_OPT (O2B_SET_OPT o.opts OPTS_TANGENTS_PACKED)
          OPTS_NORMALS_ENCODED = _
      rw [hasOpt_setOpt]
      norm_num [show O2B_HAS_OPT (1 <<< OPTS_TANGENTS_PACKED) OPTS_NORMALS_ENCODED
          = false from by decide]
    · rfl
  · show O2B_HAS_OPT (O2B_CLEAR_OPT o.opts OPTS_BITANGENTS_SIGN)
        OPTS_NORMALS_ENCODED = _
    rw [hasOpt_clearOpt,
      show O2B_HAS_OPT ((2 ^ 32 - 1) ^^^ (1 <<< OPTS_BITANGENTS_SIGN))
        OPTS_NORMALS_ENCODED = true from by decide, Bool.and_true]

lemma fixUpTans_hasOpt7_of (o : ToolOptions)
    (h : o.tans.used = true ∧ O2B_HAS_OPT o.opts OPTS_NORMALS_ENCODED = true ∧
      o.norm = o.tans ∧ o.norm.bytes ≤ 2) :
    O2B_HAS_OPT (fixUpTans o).opts OPTS_TANGENTS_PACKED = true := by
  unfold fixUpTans
  rw [if_pos h.1, if_pos ⟨h.2.1, h.2.2.1, h.2.2.2⟩]
  show O2B_HAS_OPT (O2B_SET_OPT o.opts OPTS_TANGENTS_PACKED)
      OPTS_TANGENTS_PACKED = true
  rw [hasOpt_setOpt,
    show O2B_HAS_OPT (1 <<< OPTS_TANGENTS_PACKED) OPTS_TANGENTS_PACKED = true
      from by decide, Bool.or_true]

lemma fixUpTans_hasOpt7_of_not (o : ToolOptions)
    (h : ¬(o.tans.used = true ∧ O2B_HAS_OPT o.opts OPTS_NORMALS_ENCODED = true ∧
      o.norm = o.tans ∧ o.norm.bytes ≤ 2)) :
    O2B_HAS_OPT (fixUpTans o).opts OPTS_TANGENTS_PACKED
      = O2B_HAS_OPT o.opts OPTS_TANGENTS_PACKED := by
  unfold fixUpTans
  by_cases h1 : o.tans.used = true
  · rw [if_pos h1, if_neg (fun hc => h ⟨h1, hc⟩)]
  · rw [if_neg h1]
    show O2B_HAS_OPT (O2B_CLEAR_OPT o.opts OPTS_BITANGENTS_SIGN)
        OPTS_TANGENTS_PACKED = _
    rw [hasOpt_clearOpt,
      show O2B_HAS_OPT ((2 ^ 32 - 1) ^^^ (1 <<< OPTS_BITANGENTS_SIGN))
        OPTS_TANGENTS_PACKED = true from by decide, Bool.and_true]

lemma fixUpIdxs_fields (o o' : ToolOptions) (h : fixUpIdxs o = some o') :
    o'.norm = o.norm ∧ o'.tans = o.tans ∧ o'.opts = o.opts := by
  cases hi : o.idxs <;> simp [fixUpIdxs, hi] at h <;> simp [← h]

lemma mkBufferLayout_packTans (q : ToolOptions) :
    (mkBufferLayout q).packTans =
      if (O2B_HAS_OPT q.opts OPTS_TANGENTS_PACKED && q.tans.used) = true ∧
          O2B_HAS_OPT q.opts OPTS_NORMALS_ENCODED = true ∧ q.norm.used = true
      then .PACK_NORM_Z else .PACK_NONE := by
  cases hb7 : O2B_HAS_OPT q.opts OPTS_TANGENTS_PACKED <;>
    cases htu : q.tans.used <;>
      cases hb4 : O2B_HAS_OPT q.opts OPTS_NORMALS_ENCODED <;>
        cases hnu : q.norm.used <;>
          simp [mkBufferLayout, AttrParams.fill, AttrParams.validate,
            AttrParams.used, tryPacking, hb7, htu, hb4, hnu]

/-- C4 amended: starting from options whose `OPTS_TANGENTS_PACKED` flag is
clear (the flag is not user-settable; `fixUp` derives it), the planner
assigns `packTans` (always `PACK_NORM_Z`, forced into normal.zw) exactly
when normals are octahedral-encoded, tangents are requested, the tangent
storage type equals the normal storage type, *and* that shared type is at
most 2 bytes wide. -/
theorem tangent_packing_exact (o : ToolOptions)
    (h7 : O2B_HAS_OPT o.opts OPTS_TANGENTS_PACKED = false)
    (o' : ToolOptions) (hfix : fixUp o = some o') :
    (mkBufferLayout o').packTans =
      if O2B_HAS_OPT o.opts OPTS_NORMALS_ENCODED = true ∧ o.tans ≠ .EXCLUDE ∧
          o.norm = o.tans ∧ o.norm.bytes ≤ 2
      then .PACK_NORM_Z else .PACK_NONE := by
  obtain ⟨hn, ht, hopts⟩ := fixUpIdxs_fields _ _ hfix
  have hpn := fixUpPosn_norm o
  have hpt := fixUpPosn_tans o
  have hp4 : O2B_HAS_OPT (fixUpPosn o).opts OPTS_NORMALS_ENCODED
      = O2B_HAS_OPT o.opts OPTS_NORMALS_ENCODED :=
    fixUpPosn_hasOpt _ _ (by decide)
  have hp7 : O2B_HAS_OPT (fixUpPosn o).opts OPTS_TANGENTS_PACKED
      = O2B_HAS_OPT o.opts OPTS_TANGENTS_PACKED :=
    fixUpPosn_hasOpt _ _ (by decide)
  have hn' : o'.norm = o.norm := by rw [hn, fixUpTans_norm, hpn]
  have ht' : o'.tans = o.tans := by rw [ht, fixUpTans_tans, hpt]
  have hb4 : O2B_HAS_OPT o'.opts OPTS_NORMALS_ENCODED
      = O2B_HAS_OPT o.opts OPTS_NORMALS_ENCODED := by
    rw [hopts, fixUpTans_hasOpt4, hp4]
  rw [mkBufferLayout_packTans]
  by_cases hc : O2B_HAS_OPT o.opts OPTS_NORMALS_ENCODED = true ∧
      o.tans ≠ .EXCLUDE ∧ o.norm = o.tans ∧ o.norm.bytes ≤ 2
  · rw [if_pos hc, if_pos]
    refine ⟨?_, ?_, ?_⟩
    · have h7' : O2B_HAS_OPT o'.opts OPTS_TANGENTS_PACKED = true := by
        rw [hopts]
        exact fixUpTans_hasOpt7_of _
          ⟨by rw [hpt]; exact (used_iff_ne _).mpr hc.2.1,
           by rw [hp4]; exact hc.1,
           by rw [hpn, hpt]; exact hc.2.2.1,
           by rw [hpn]; exact hc.2.2.2⟩
      have htu : o'.tans.used = true := by
        rw [ht']; exact (used_iff_ne _).mpr hc.2.1
      rw [h7', htu]
      rfl
    · rw [hb4]; exact hc.1
    · rw [hn', hc.2.2.1]; exact (used_iff_ne _).mpr hc.2.1
  · rw [if_neg hc, if_neg]
    intro hcon
    apply hc
    obtain ⟨hand, hb4', hnu⟩ := hcon
    obtain ⟨h7'eq, htu'⟩ := Bool.and_eq_true_iff.mp hand
    by_cases hcnd : (fixUpPosn o).tans.used = true ∧
        O2B_HAS_OPT (fixUpPosn o).opts OPTS_NORMALS_ENCODED = true ∧
        (fixUpPosn o).norm = (fixUpPosn o).tans ∧ (fixUpPosn o).norm.bytes ≤ 2
    · refine ⟨by rw [← hp4]; exact hcnd.2.1, ?_, ?_, ?_⟩
      · have := hcnd.1
        rw [hpt] at this
        exact (used_iff_ne _).mp this
      · have := hcnd.2.2.1
        rwa [hpn, hpt] at this
      · have := hcnd.2.2.2
        rwa [hpn] at this
    · exfalso
      have hkeep := fixUpTans_hasOpt7_of_not _ hcnd
      rw [hopts, hkeep, hp7, h7] at h7'eq
      exact Bool.noConfusion h7'eq

/-- Witness for `tangent_packing_exact` at the scenario-B options. -/
theorem tangent_packing_exact_witness :
    (mkBufferLayout
        ⟨.SINT16N, .EXCLUDE, .SINT08N, .SINT08N, .UINT16C, 402⟩).packTans =
      if O2B_HAS_OPT scenarioB.opts OPTS_NORMALS_ENCODED = true ∧
          scenarioB.tans ≠ .EXCLUDE ∧ scenarioB.norm = scenarioB.tans ∧
          scenarioB.norm.bytes ≤ 2
      then .PACK_NORM_Z else .PACK_NONE :=
  tangent_packing_exact scenarioB (by decide)
    ⟨.SINT16N, .EXCLUDE, .SINT08N, .SINT08N, .UINT16C, 402⟩ (by decide)

/-! ### Octahedral encoding (objvertex.cpp) and `Vec3` (vec.h) -/

/-- `Vec3<float>` (vec.h). -/
structure Vec3 where
  x : ℚ
  y : ℚ
  z : ℚ
  deriving DecidableEq, Repr

/-- `Vec3::cross` (vec.h line 246), transcribed exactly as written (note the
`- lhs.z - rhs.y` terms where a cross product would multiply). -/
def Vec3.cross (lhs rhs : Vec3) : Vec3 :=
  ⟨lhs.y * rhs.z - lhs.z - rhs.y,
   lhs.z * rhs.x - lhs.x - rhs.z,
   lhs.x * rhs.y - lhs.y - rhs.x⟩

/-- The mathematical cross product, as claim C10 states it. -/
def crossSpec (a b : Vec3) : Vec3 :=
  ⟨a.y * b.z - a.z * b.y, a.z * b.x - a.x * b.z, a.x * b.y - a.y * b.x⟩

/-- C10 fails on the code: `Vec3::cross` subtracts components instead of
multiplying them, so on the basis vectors `(0,1,0) × (0,0,1)` it returns
`(1,-1,-1)` where the cross product is `(1,0,0)`. -/
theorem cross_formula_bug :
    Vec3.cross ⟨0, 1, 0⟩ ⟨0, 0, 1⟩ = ⟨1, -1, -1⟩ ∧
    crossSpec ⟨0, 1, 0⟩ ⟨0, 0, 1⟩ = ⟨1, 0, 0⟩ ∧
    Vec3.cross ⟨0, 1, 0⟩ ⟨0, 0, 1⟩ ≠ crossSpec ⟨0, 1, 0⟩ ⟨0, 0, 1⟩ := by
  refine ⟨?_, ?_, ?_⟩ <;> norm_num [Vec3.cross, crossSpec]

/-- `_sign_` (objvertex.cpp line 343): the sign of `val` with `0` mapped to
`+1`. -/
def sign_ (val : ℚ) : ℚ := if 0 ≤ val then 1 else -1

/-- `encodeOct(const vec3&)` (objvertex.cpp line 352): octahedral encoding,
with the division guarded against a zero `sum`. -/
def encodeOct (v : Vec3) : ℚ × ℚ :=
  let sum := |v.x| + |v.y| + |v.z|
  let vecX := if sum ≠ 0 then v.x / sum else 0
  let vecY := if sum ≠ 0 then v.y / sum else 0
  (if v.z ≤ 0 then (1 - |vecY|) * sign_ vecX else vecX,
   if v.z ≤ 0 then (1 - |vecX|) * sign_ vecY else vecY)

/-- C9: the octahedral encoder projects through `sum = |x|+|y|+|z|` to
`(x/sum, y/sum)` and, when `z ≤ 0`, folds that projection through
`((1-|y'|)*sign(x'), (1-|x'|)*sign(y'))` with a sign function that maps
every non-negative value — zero included — to `+1` and negatives to `-1`
(never to `0`). -/
theorem encode_oct_fold (v : Vec3) :
    (v.z ≤ 0 →
      encodeOct v =
        ((1 - |v.y / (|v.x| + |v.y| + |v.z|)|) *
            (if 0 ≤ v.x / (|v.x| + |v.y| + |v.z|) then 1 else -1),
          (1 - |v.x / (|v.x| + |v.y| + |v.z|)|) *
            (if 0 ≤ v.y / (|v.x| + |v.y| + |v.z|) then 1 else -1))) ∧
    (¬v.z ≤ 0 →
      encodeOct v =
        (v.x / (|v.x| + |v.y| + |v.z|), v.y / (|v.x| + |v.y| + |v.z|))) ∧
    sign_ 0 = 1 := by
  refine ⟨fun h => ?_, fun h => ?_, rfl⟩ <;>
    by_cases hsum : |v.x| + |v.y| + |v.z| = 0 <;>
      simp [encodeOct, sign_, hsum, h]

/-- Witness for `encode_oct_fold` at `v = (0, 0, -1)` (fold path, both
projected components zero: the signs used are `+1`). -/
theorem encode_oct_fold_witness :
    encodeOct ⟨0, 0, -1⟩ =
      ((1 - |(0 : ℚ) / (|(0 : ℚ)| + |(0 : ℚ)| + |(-1 : ℚ)|)|) *
          (if 0 ≤ (0 : ℚ) / (|(0 : ℚ)| + |(0 : ℚ)| + |(-1 : ℚ)|) then 1 else -1),
        (1 - |(0 : ℚ) / (|(0 : ℚ)| + |(0 : ℚ)| + |(-1 : ℚ)|)|) *
          (if 0 ≤ (0 : ℚ) / (|(0 : ℚ)| + |(0 : ℚ)| + |(-1 : ℚ)|) then 1 else -1)) :=
  (encode_oct_fold ⟨0, 0, -1⟩).1 (by norm_num)
